import Mathlib

/-
Verification of the partial-update (PATCH) merge-upsert core:
a shallow embedding of src/lib.rs (struct Update, Update::insert_or_update,
struct User, fn fetch) and src/patch.rs (enum Patch, its Deserialize impl,
fn double_option), together with the serde deserialization semantics the
two files rely on.
-/

/-- JSON-like wire values consumed by the decoders (serde_json values). -/
inductive Json where
  | null
  | str (s : String)
  | num (n : Int)
  | obj (fields : List (String × Json))

/-- What a struct field's deserializer receives from the serde derive:
either the JSON value stored under the field's key, or — when the key is
absent and the field has no serde default — serde's missing-field
deserializer, which answers visit_none to deserialize_option and fails
every other method. -/
inductive DeValue where
  | json (j : Json)
  | missingField

/-- serde deserialization of Option T: a JSON null maps to none, any other
JSON value decodes T and wraps it in some, and the missing-field
deserializer yields none (its deserialize_option calls visit_none).
decodeT stands for the T : Deserialize bound. -/
def deserializeOption {α : Type} (decodeT : Json → Except String α) :
    DeValue → Except String (Option α)
  | .json .null => .ok none
  | .json j => (decodeT j).map some
  | .missingField => .ok none

/-- serde deserialization of String: only a JSON string decodes. -/
def decodeString : Json → Except String String
  | .str s => .ok s
  | _ => .error "invalid type"

/-- serde deserialization of i32 (used by the Payload test in patch.rs). -/
def decodeInt : Json → Except String Int
  | .num n => .ok n
  | _ => .error "invalid type"

/-- lib.rs deserialize_some: deserializes T from the value and wraps the
result in Some. In Update the T at hand is Option String, so a key
present with null becomes Some(None), while an absent key (handled by
the serde default, not by this function) stays None. -/
def deserialize_some {α : Type} (decodeT : Json → Except String α) (j : Json) :
    Except String (Option α) :=
  (decodeT j).map some

/-- lib.rs struct Update: one and two are double options, distinguishing
null (Some None) from a missing key (None). -/
structure Update where
  one : Option (Option String)
  two : Option (Option String)
deriving DecidableEq

/-- Per-field decode as generated by the serde derive for Update: each
field carries serde(default, deserialize_with = deserialize_some), so an
absent key yields the field's default (none) and a present key runs
deserialize_some on its value. -/
def decodeField (fields : List (String × Json)) (key : String) :
    Except String (Option (Option String)) :=
  match fields.lookup key with
  | none => .ok none
  | some j => deserialize_some (fun v => deserializeOption decodeString (.json v)) j

/-- Decoding a wire payload into an Update (the serde derive for struct
Update): only a map decodes; the fields one and two are decoded
independently and the whole decode fails on the first field error;
unrecognized keys are ignored. -/
def Update.deserialize : Json → Except String Update
  | .obj fields =>
    match decodeField fields "one" with
    | .error e => .error e
    | .ok one =>
      match decodeField fields "two" with
      | .error e => .error e
      | .ok two => .ok { one := one, two := two }
  | _ => .error "invalid type: expected a map"

/-- A stored users row: the two updatable nullable columns. The
server-assigned id column never participates in merging or fetching
claims and is not modelled. -/
structure Record where
  one : Option String
  two : Option String
deriving DecidableEq

/-- The users table, keyed by the unique internal_id column. -/
def Store : Type := Int → Option Record

def emptyStore : Store := fun _ => none

/-- Writing one row of the users table (the effect of the update or
insert statement for internal_id, once committed). -/
def setRow (db : Store) (internal_id : Int) (r : Record) : Store :=
  fun k => if k = internal_id then some r else db k

/-- The merge computation inlined in Update::insert_or_update
(lib.rs lines 58-59 and 73-74), factored as the pure resolver: against an
existing row each field is self.f.unwrap_or_else(current value); on first
insert each field is self.f.flatten(). -/
def resolve (existing : Option Record) (u : Update) : Record :=
  match existing with
  | some row => { one := u.one.getD row.one, two := u.two.getD row.two }
  | none => { one := u.one.join, two := u.two.join }

/-- Success path of Update::insert_or_update (lib.rs lines 27-82): select
the row for internal_id (for update); if it exists, update it with each
field taken from the request when specified, otherwise from the current
row; if not, insert the flattened request values. -/
def Update.insert_or_update (u : Update) (internal_id : Int) (db : Store) : Store :=
  match db internal_id with
  | some row => setRow db internal_id { one := u.one.getD row.one, two := u.two.getD row.two }
  | none => setRow db internal_id { one := u.one.join, two := u.two.join }

/-- Caller-visible result of running a fallible database operation whose
errors are all unwrapped: either the returned value, or a panic. -/
inductive RunResult (α : Type) where
  | ok (v : α)
  | panicked (msg : String)
deriving DecidableEq

/-- Which collaborator calls fail during one run of insert_or_update:
acquiring a pooled connection, beginning the transaction, the select for
update, the write statement, or the commit. -/
structure FailSchedule where
  poolGet : Bool
  txBegin : Bool
  rowQuery : Bool
  writeStmt : Bool
  commit : Bool
deriving DecidableEq

def noFail : FailSchedule := ⟨false, false, false, false, false⟩

/-- Update::insert_or_update with its fallible collaborator calls
modelled: every call is unwrapped, so the first failure panics. The pair
is (caller-visible return value, store state visible after the run). The
Rust function returns unit. A failure before commit leaves the visible
store unchanged: rollback of an uncommitted transaction is the store
driver's contract, encoded here by returning db in the panic branches. -/
def Update.insert_or_update_run (u : Update) (internal_id : Int) (db : Store)
    (f : FailSchedule) : RunResult Unit × Store :=
  if f.poolGet then (.panicked "pool.get", db)
  else if f.txBegin then (.panicked "transaction", db)
  else if f.rowQuery then (.panicked "query_opt", db)
  else if f.writeStmt then (.panicked "execute", db)
  else if f.commit then (.panicked "commit", db)
  else (.ok (), u.insert_or_update internal_id db)

/-- lib.rs struct User as fetched (id omitted, see Record). -/
structure User where
  internal_id : Int
  one : Option String
  two : Option String
deriving DecidableEq

/-- fn fetch (lib.rs lines 92-109): a single select by internal_id;
query_one().unwrap() panics when no row exists. The second component is
the store after the call; the function body contains no write statement,
so it is the store the call started with. -/
def fetch (db : Store) (internal_id : Int) : RunResult User × Store :=
  match db internal_id with
  | some row => (.ok { internal_id := internal_id, one := row.one, two := row.two }, db)
  | none => (.panicked "query_one", db)

/-- patch.rs enum Patch. -/
inductive Patch (α : Type) where
  | some (v : α)
  | explicitNull
  | missing
deriving DecidableEq

/-- patch.rs double_option: deserializes Option T and wraps the result in
Some, hence never returns a bare None. -/
def double_option {α : Type} (decodeT : Json → Except String α) (d : DeValue) :
    Except String (Option (Option α)) :=
  (deserializeOption decodeT d).map some

/-- Result of running Patch::deserialize, which can hit the todo macro. -/
inductive DeResult (α : Type) where
  | ok (v : α)
  | error (msg : String)
  | todoPanic
deriving DecidableEq

/-- patch.rs Patch::deserialize: deserializes PatchInner (transparent over
double_option), then maps Some(Some v) to Patch::Some, Some(None) to
Patch::ExplicitNull, and None to the todo macro (a panic). -/
def Patch.deserialize {α : Type} (decodeT : Json → Except String α) (d : DeValue) :
    DeResult (Patch α) :=
  match double_option decodeT d with
  | .error e => .error e
  | .ok (Option.some (Option.some v)) => .ok (.some v)
  | .ok (Option.some Option.none) => .ok .explicitNull
  | .ok Option.none => .todoPanic

/-- Decoding the field of patch.rs tests::Payload, whose field is a
Patch of i32 with no serde default: a present key hands its JSON value to
Patch::deserialize; an absent key goes through serde's missing-field
deserializer. -/
def Payload.decodeField (fields : List (String × Json)) : DeResult (Patch Int) :=
  match fields.lookup "field" with
  | some j => Patch.deserialize decodeInt (.json j)
  | none => Patch.deserialize decodeInt .missingField

/-- Helper: insert_or_update writes exactly the resolver's output for the
row's prior state at internal_id, leaving all other keys alone. -/
theorem insert_or_update_eq_setRow (u : Update) (id : Int) (db : Store) :
    u.insert_or_update id db = setRow db id (resolve (db id) u) := by
  cases h : db id <;> simp [Update.insert_or_update, resolve, h]

/-- Helper: writing the same row twice is the same as writing it once. -/
theorem setRow_setRow (db : Store) (id : Int) (r : Record) :
    setRow (setRow db id r) id r = setRow db id r := by
  funext k
  by_cases h : k = id <;> simp [setRow, h]

/-- Helper: the written row is visible at its key. -/
theorem setRow_self (db : Store) (id : Int) (r : Record) :
    (setRow db id r) id = some r := by
  simp [setRow]

/-- C1: per-field merge resolution. For each field (one and two, the
other field's request state w arbitrary): a Present value some (some v)
resolves to v against any existing row and on creation; an ExplicitNull
some none resolves to null in both cases; a Missing field (none)
resolves to the existing row's value when a row exists and to null on
first-time creation. -/
theorem merge_per_field_resolution (v : String) (w : Option (Option String)) (ex : Record) :
    (resolve (some ex) ⟨some (some v), w⟩).one = some v ∧
    (resolve none ⟨some (some v), w⟩).one = some v ∧
    (resolve (some ex) ⟨some none, w⟩).one = none ∧
    (resolve none ⟨some none, w⟩).one = none ∧
    (resolve (some ex) ⟨none, w⟩).one = ex.one ∧
    (resolve none ⟨none, w⟩).one = none ∧
    (resolve (some ex) ⟨w, some (some v)⟩).two = some v ∧
    (resolve none ⟨w, some (some v)⟩).two = some v ∧
    (resolve (some ex) ⟨w, some none⟩).two = none ∧
    (resolve none ⟨w, some none⟩).two = none ∧
    (resolve (some ex) ⟨w, none⟩).two = ex.two ∧
    (resolve none ⟨w, none⟩).two = none :=
  ⟨rfl, rfl, rfl, rfl, rfl, rfl, rfl, rfl, rfl, rfl, rfl, rfl⟩

/-- C2: decoding a Patch field whose key is absent from the input does
not yield Patch::missing; it yields Patch::explicitNull (double_option
wraps the missing-field visit_none in Some), and no input whatsoever can
decode to Patch::missing, contradicting the repository's own
tests::missing which asserts Patch::Missing for the empty map. -/
theorem patch_missing_key_decodes_explicitNull :
    Payload.decodeField [] = .ok .explicitNull ∧
    Payload.decodeField [] ≠ .ok .missing ∧
    ∀ (α : Type) (decodeT : Json → Except String α) (d : DeValue),
      Patch.deserialize decodeT d ≠ .ok .missing := by
  refine ⟨rfl, by decide, ?_⟩
  intro α decodeT d h
  rcases hd : double_option decodeT d with e | (_ | (_ | w)) <;>
    simp [Patch.deserialize, hd] at h

/-- C9: for every input in which the field's key is present (a JSON
value handed to Patch::deserialize), the todo panic is never reached:
double_option wraps the inner result in Some, so the None branch is
unreachable, and the decode is Ok(Patch::Some v), Ok(Patch::ExplicitNull)
or a decode error. -/
theorem patch_present_key_never_panics {α : Type} (decodeT : Json → Except String α)
    (j : Json) :
    Patch.deserialize decodeT (.json j) ≠ .todoPanic ∧
    ((∃ v, Patch.deserialize decodeT (.json j) = .ok (.some v)) ∨
     Patch.deserialize decodeT (.json j) = .ok .explicitNull ∨
     ∃ e, Patch.deserialize decodeT (.json j) = .error e) := by
  have key : Patch.deserialize decodeT (.json j) = .ok .explicitNull ∨
      ((∃ v, Patch.deserialize decodeT (.json j) = .ok (.some v)) ∨
       ∃ e, Patch.deserialize decodeT (.json j) = .error e) := by
    cases j with
    | null => exact Or.inl rfl
    | str s =>
      rcases h : decodeT (.str s) with e | v
      · exact Or.inr (Or.inr ⟨e, by simp [Patch.deserialize, double_option, deserializeOption, h, Except.map]⟩)
      · exact Or.inr (Or.inl ⟨v, by simp [Patch.deserialize, double_option, deserializeOption, h, Except.map]⟩)
    | num n =>
      rcases h : decodeT (.num n) with e | v
      · exact Or.inr (Or.inr ⟨e, by simp [Patch.deserialize, double_option, deserializeOption, h, Except.map]⟩)
      · exact Or.inr (Or.inl ⟨v, by simp [Patch.deserialize, double_option, deserializeOption, h, Except.map]⟩)
    | obj fs =>
      rcases h : decodeT (.obj fs) with e | v
      · exact Or.inr (Or.inr ⟨e, by simp [Patch.deserialize, double_option, deserializeOption, h, Except.map]⟩)
      · exact Or.inr (Or.inl ⟨v, by simp [Patch.deserialize, double_option, deserializeOption, h, Except.map]⟩)
  constructor
  · rcases key with h | (⟨v, h⟩ | ⟨e, h⟩) <;> rw [h] <;> simp
  · rcases key with h | (⟨v, h⟩ | ⟨e, h⟩)
    · exact Or.inr (Or.inl h)
    · exact Or.inl ⟨v, h⟩
    · exact Or.inr (Or.inr ⟨e, h⟩)

/-- C10: fetch is a pure read: the store after a fetch equals the store
before it, at the fetched key and at every other key. -/
theorem fetch_pure_read (db : Store) (k : Int) :
    (fetch db k).2 = db ∧ ∀ q, ((fetch db k).2) q = db q := by
  have h2 : (fetch db k).2 = db := by
    cases h : db k <;> simp [fetch, h]
  exact ⟨h2, fun q => by rw [h2]⟩

/-- Helper: a successful Update decode determines each field from the
key's presence and value in the input map. -/
theorem update_deserialize_fields (fields : List (String × Json)) (u : Update)
    (h : Update.deserialize (.obj fields) = .ok u) :
    decodeField fields "one" = .ok u.one ∧ decodeField fields "two" = .ok u.two := by
  rcases h1 : decodeField fields "one" with e | o <;>
    rcases h2 : decodeField fields "two" with e2 | t <;>
      simp [Update.deserialize, h1, h2] at h
  obtain ⟨ho, ht⟩ : u.one = o ∧ u.two = t := by
    cases h; exact ⟨rfl, rfl⟩
  rw [ho, ht]
  exact ⟨rfl, rfl⟩

/-- C3: the Update wire decoder is tri-state on each of the fields one
and two: an absent key decodes to none (Missing), a key present with
null to some none (ExplicitNull), a key present with a string s to
some (some s) (Present s); and the key-absent and key-null decodes are
distinct states. -/
theorem update_decode_tristate (fields : List (String × Json)) (u : Update)
    (h : Update.deserialize (.obj fields) = .ok u) :
    (fields.lookup "one" = none → u.one = none) ∧
    (fields.lookup "one" = some .null → u.one = some none) ∧
    (∀ s, fields.lookup "one" = some (.str s) → u.one = some (some s)) ∧
    (fields.lookup "two" = none → u.two = none) ∧
    (fields.lookup "two" = some .null → u.two = some none) ∧
    (∀ s, fields.lookup "two" = some (.str s) → u.two = some (some s)) ∧
    (none : Option (Option String)) ≠ some none := by
  obtain ⟨h1, h2⟩ := update_deserialize_fields fields u h
  refine ⟨?_, ?_, ?_, ?_, ?_, ?_, by simp⟩
  · intro hl
    rw [decodeField, hl] at h1
    exact (Except.ok.inj h1).symm
  · intro hl
    rw [decodeField, hl] at h1
    simp [deserialize_some, deserializeOption, Except.map] at h1
    exact h1.symm
  · intro s hl
    rw [decodeField, hl] at h1
    simp [deserialize_some, deserializeOption, decodeString, Except.map] at h1
    exact h1.symm
  · intro hl
    rw [decodeField, hl] at h2
    exact (Except.ok.inj h2).symm
  · intro hl
    rw [decodeField, hl] at h2
    simp [deserialize_some, deserializeOption, Except.map] at h2
    exact h2.symm
  · intro s hl
    rw [decodeField, hl] at h2
    simp [deserialize_some, deserializeOption, decodeString, Except.map] at h2
    exact h2.symm

/-- Witness for update_decode_tristate at the concrete input having one
present with null and two absent. -/
theorem update_decode_tristate_witness :
    (⟨some none, none⟩ : Update).one = some none ∧
    (⟨some none, none⟩ : Update).two = none :=
  have h := update_decode_tristate [("one", Json.null)] ⟨some none, none⟩ rfl
  ⟨h.2.1 rfl, h.2.2.2.1 rfl⟩

/-- C6: idempotent convergence: resolving the same request a second time
against the record it just produced changes nothing, and running the
merge-upsert twice in sequence for the same key leaves exactly the store
of a single run. -/
theorem idempotent_convergence (u : Update) (id : Int) (db : Store) (ex : Option Record) :
    resolve (some (resolve ex u)) u = resolve ex u ∧
    u.insert_or_update id (u.insert_or_update id db) = u.insert_or_update id db := by
  have hres : ∀ e : Option Record, resolve (some (resolve e u)) u = resolve e u := by
    intro e
    obtain ⟨o, t⟩ := u
    rcases e with _ | row <;> rcases o with _ | o1 <;> rcases t with _ | t1 <;>
      simp [resolve]
  refine ⟨hres ex, ?_⟩
  have h1 := insert_or_update_eq_setRow u id db
  calc u.insert_or_update id (u.insert_or_update id db)
      = setRow (u.insert_or_update id db) id
          (resolve ((u.insert_or_update id db) id) u) :=
        insert_or_update_eq_setRow u id (u.insert_or_update id db)
    _ = setRow db id (resolve (db id) u) := by
        rw [h1, setRow_self, hres, setRow_setRow]
    _ = u.insert_or_update id db := h1.symm

/-- C7: no lost update on disjoint fields: with a record present for the
key, a request writing only field one (two Missing) and a request
writing only field two (one Missing) applied back-to-back, in either
order, leave the record with both new values. -/
theorem no_lost_update_disjoint_fields (db : Store) (id : Int) (ex : Record)
    (h : db id = some ex) (p q : Option String) :
    (Update.insert_or_update ⟨none, some q⟩ id
        (Update.insert_or_update ⟨some p, none⟩ id db)) id = some ⟨p, q⟩ ∧
    (Update.insert_or_update ⟨some p, none⟩ id
        (Update.insert_or_update ⟨none, some q⟩ id db)) id = some ⟨p, q⟩ := by
  have hA : (Update.insert_or_update ⟨some p, none⟩ id db) id = some ⟨p, ex.two⟩ := by
    simp [Update.insert_or_update, h, setRow]
  have hB : (Update.insert_or_update ⟨none, some q⟩ id db) id = some ⟨ex.one, q⟩ := by
    simp [Update.insert_or_update, h, setRow]
  constructor
  · rw [insert_or_update_eq_setRow, setRow_self, hA]
    rfl
  · rw [insert_or_update_eq_setRow, setRow_self, hB]
    rfl

/-- Witness for no_lost_update_disjoint_fields on a store holding the
record (one = a, two = b) at key 1, with new values x and null. -/
theorem no_lost_update_disjoint_fields_witness :
    (Update.insert_or_update ⟨none, some none⟩ 1
        (Update.insert_or_update ⟨some (some "x"), none⟩ 1
          (setRow emptyStore 1 ⟨some "a", some "b"⟩))) 1 = some ⟨some "x", none⟩ ∧
    (Update.insert_or_update ⟨some (some "x"), none⟩ 1
        (Update.insert_or_update ⟨none, some none⟩ 1
          (setRow emptyStore 1 ⟨some "a", some "b"⟩))) 1 = some ⟨some "x", none⟩ :=
  no_lost_update_disjoint_fields (setRow emptyStore 1 ⟨some "a", some "b"⟩) 1
    ⟨some "a", some "b"⟩ (by decide) (some "x") none

/-- C4: end-to-end scenario for a fresh key K: decode and apply
(one = "1", two = "1"), then (one = "3"), then (one = null), then the
empty request; after each step, fetch yields exactly the record the spec
lists. -/
theorem end_to_end_scenario (db : Store) (K : Int) (hfresh : db K = none)
    (u1 u2 u3 u4 : Update)
    (h1 : Update.deserialize (.obj [("one", .str "1"), ("two", .str "1")]) = .ok u1)
    (h2 : Update.deserialize (.obj [("one", .str "3")]) = .ok u2)
    (h3 : Update.deserialize (.obj [("one", .null)]) = .ok u3)
    (h4 : Update.deserialize (.obj []) = .ok u4) :
    (fetch (u1.insert_or_update K db) K).1 = .ok ⟨K, some "1", some "1"⟩ ∧
    (fetch (u2.insert_or_update K (u1.insert_or_update K db)) K).1
      = .ok ⟨K, some "3", some "1"⟩ ∧
    (fetch (u3.insert_or_update K
        (u2.insert_or_update K (u1.insert_or_update K db))) K).1
      = .ok ⟨K, none, some "1"⟩ ∧
    (fetch (u4.insert_or_update K (u3.insert_or_update K
        (u2.insert_or_update K (u1.insert_or_update K db)))) K).1
      = .ok ⟨K, none, some "1"⟩ := by
  have e1 : u1 = ⟨some (some "1"), some (some "1")⟩ := (Except.ok.inj h1).symm
  have e2 : u2 = ⟨some (some "3"), none⟩ := (Except.ok.inj h2).symm
  have e3 : u3 = ⟨some none, none⟩ := (Except.ok.inj h3).symm
  have e4 : u4 = ⟨none, none⟩ := (Except.ok.inj h4).symm
  subst e1 e2 e3 e4
  have hd1 : (Update.insert_or_update ⟨some (some "1"), some (some "1")⟩ K db) K
      = some ⟨some "1", some "1"⟩ := by
    simp [Update.insert_or_update, hfresh, setRow]
  have hd2 : (Update.insert_or_update ⟨some (some "3"), none⟩ K
      (Update.insert_or_update ⟨some (some "1"), some (some "1")⟩ K db)) K
      = some ⟨some "3", some "1"⟩ := by
    rw [insert_or_update_eq_setRow, setRow_self, hd1]
    rfl
  have hd3 : (Update.insert_or_update ⟨some none, none⟩ K
      (Update.insert_or_update ⟨some (some "3"), none⟩ K
        (Update.insert_or_update ⟨some (some "1"), some (some "1")⟩ K db))) K
      = some ⟨none, some "1"⟩ := by
    rw [insert_or_update_eq_setRow, setRow_self, hd2]
    rfl
  have hd4 : (Update.insert_or_update ⟨none, none⟩ K
      (Update.insert_or_update ⟨some none, none⟩ K
        (Update.insert_or_update ⟨some (some "3"), none⟩ K
          (Update.insert_or_update ⟨some (some "1"), some (some "1")⟩ K db)))) K
      = some ⟨none, some "1"⟩ := by
    rw [insert_or_update_eq_setRow, setRow_self, hd3]
    rfl
  exact ⟨by simp [fetch, hd1], by simp [fetch, hd2], by simp [fetch, hd3],
    by simp [fetch, hd4]⟩

/-- Witness for end_to_end_scenario at key 1 over the empty store with
the four decoded requests. -/
theorem end_to_end_scenario_witness :
    (fetch (Update.insert_or_update ⟨some (some "1"), some (some "1")⟩ 1 emptyStore) 1).1
      = .ok ⟨1, some "1", some "1"⟩ ∧
    (fetch (Update.insert_or_update ⟨some (some "3"), none⟩ 1
        (Update.insert_or_update ⟨some (some "1"), some (some "1")⟩ 1 emptyStore)) 1).1
      = .ok ⟨1, some "3", some "1"⟩ ∧
    (fetch (Update.insert_or_update ⟨some none, none⟩ 1
        (Update.insert_or_update ⟨some (some "3"), none⟩ 1
          (Update.insert_or_update ⟨some (some "1"), some (some "1")⟩ 1 emptyStore))) 1).1
      = .ok ⟨1, none, some "1"⟩ ∧
    (fetch (Update.insert_or_update ⟨none, none⟩ 1
        (Update.insert_or_update ⟨some none, none⟩ 1
          (Update.insert_or_update ⟨some (some "3"), none⟩ 1
            (Update.insert_or_update ⟨some (some "1"), some (some "1")⟩ 1 emptyStore)))) 1).1
      = .ok ⟨1, none, some "1"⟩ :=
  end_to_end_scenario emptyStore 1 rfl
    ⟨some (some "1"), some (some "1")⟩ ⟨some (some "3"), none⟩ ⟨some none, none⟩ ⟨none, none⟩
    rfl rfl rfl rfl

/-- C5 counterexample: at a concrete input where the select-for-update
fails, insert_or_update panics (an unwrap on the failed call) instead of
surfacing any error value to the caller; the visible store is the
unchanged starting store. -/
theorem storage_failure_panics_cex :
    Update.insert_or_update_run ⟨some (some "x"), none⟩ 1 emptyStore
        ⟨false, false, true, false, false⟩
      = (.panicked "query_opt", emptyStore) ∧
    (Update.insert_or_update_run ⟨some (some "x"), none⟩ 1 emptyStore
        ⟨false, false, true, false, false⟩).1 ≠ .ok () :=
  ⟨rfl, by decide⟩

/-- C5 amended: every connection or transaction failure during
insert_or_update makes the operation panic via unwrap (no error value is
returned — the code has no error type), and the visible stored state is
left unchanged, the failed transaction committing nothing. -/
theorem storage_failure_panics_state_unchanged (u : Update) (id : Int) (db : Store)
    (f : FailSchedule) (hf : f ≠ noFail) :
    ∃ msg, u.insert_or_update_run id db f = (.panicked msg, db) := by
  obtain ⟨a, b, c, d, e⟩ := f
  cases a <;> cases b <;> cases c <;> cases d <;> cases e <;>
    first
      | exact absurd rfl hf
      | exact ⟨_, rfl⟩

/-- Witness for storage_failure_panics_state_unchanged with a failing
pool acquisition. -/
theorem storage_failure_panics_state_unchanged_witness :
    ∃ msg, Update.insert_or_update_run ⟨none, none⟩ 1 emptyStore
        ⟨true, false, false, false, false⟩ = (.panicked msg, emptyStore) :=
  storage_failure_panics_state_unchanged ⟨none, none⟩ 1 emptyStore
    ⟨true, false, false, false, false⟩ (by decide)

/-- C8 counterexample: two merge-upserts that persist different records
return identical values to the caller (the Rust function returns unit),
so the operation does not return the resulting persisted record. -/
theorem insert_or_update_returns_no_record_cex :
    (Update.insert_or_update_run ⟨some (some "a"), none⟩ 1 emptyStore noFail).1
      = (Update.insert_or_update_run ⟨some (some "b"), none⟩ 1 emptyStore noFail).1 ∧
    (Update.insert_or_update_run ⟨some (some "a"), none⟩ 1 emptyStore noFail).2 1
      ≠ (Update.insert_or_update_run ⟨some (some "b"), none⟩ 1 emptyStore noFail).2 1 :=
  ⟨rfl, by decide⟩

/-- C8 amended: insert_or_update returns unit, not the record; the
post-merge record is persisted under the key and observable only through
a subsequent fetch. -/
theorem insert_or_update_returns_unit_persists (u : Update) (id : Int) (db : Store) :
    (u.insert_or_update_run id db noFail).1 = .ok () ∧
    (fetch ((u.insert_or_update_run id db noFail).2) id).1
      = .ok ⟨id, (resolve (db id) u).one, (resolve (db id) u).two⟩ := by
  constructor
  · rfl
  · have hrun : (u.insert_or_update_run id db noFail).2 = u.insert_or_update id db := rfl
    rw [hrun, insert_or_update_eq_setRow]
    simp [fetch, setRow_self]
